import Mathlib

/-!
A shallow embedding of the servicecomb-service-center syncer server
lifecycle (syncer/server/server.go) together with the proto package's
ServerInformation constructor, and theorems about startup ordering,
startup-failure behaviour, shutdown ordering, shutdown idempotence,
signal handling and the log-file fallback.

Effectful collaborator calls (etcd agent, serf agent, grpc server,
servicecenter client) are abstracted by an environment of call outcomes;
the lifecycle functions return the list of calls they make, in the order
the Go code issues them.
-/

namespace Syncer

/-- Observable calls made by the server lifecycle code. The first block
lists the startup-side calls, the second block the shutdown-side calls. -/
inductive Event where
  | initPlugin
  | etcdRun
  | serfCreate
  | registerEventHandler
  | serfStart
  | serfJoin
  | grpcRun
  | scCreate
  | tickerStart
  | waitQuit
  | tickStop
  | deregisterEventHandler
  | serfLeave
  | serfShutdown
  | grpcStop
  | etcdStop
  | gopoolCloseAndWait
deriving DecidableEq

/-- The configuration fields of syncer config.Config that Server reads. -/
structure Config where
  joinAddr : String
  logFile : String
  scAddr : String
  rpcAddr : String
  tickerInterval : Nat
deriving DecidableEq

/-- Outcome of each effectful collaborator call made during startup:
true means the Go call returned a nil error. -/
structure Env where
  etcdRunOk : Bool
  serfCreateOk : Bool
  serfStartOk : Bool
  serfJoinOk : Bool
  grpcRunOk : Bool
  scCreateOk : Bool
deriving DecidableEq, Fintype

/-- Server.runEtcd: creates the etcd agent and runs it; an error is
logged and returned through the named return value. -/
def runEtcd (env : Env) : Bool × List Event :=
  (env.etcdRunOk, [Event.etcdRun])

/-- Server.runSerf: creates the serf agent (returning the error on
failure), registers the server itself as the serf event handler, starts
the agent (returning the error on failure), and, only when the
configured join address is non-empty, joins it, returning the join
error through the named return value. -/
def runSerf (conf : Config) (env : Env) : Bool × List Event :=
  if env.serfCreateOk = false then
    (false, [Event.serfCreate])
  else if env.serfStartOk = false then
    (false, [Event.serfCreate, Event.registerEventHandler, Event.serfStart])
  else if conf.joinAddr = "" then
    (true, [Event.serfCreate, Event.registerEventHandler, Event.serfStart])
  else
    (env.serfJoinOk,
      [Event.serfCreate, Event.registerEventHandler, Event.serfStart, Event.serfJoin])

/-- Server.runGrpc: creates the grpc server and runs it, returning its
error. -/
def runGrpc (env : Env) : Bool × List Event :=
  (env.grpcRunOk, [Event.grpcRun])

/-- Server.createServiceCenter: creates the servicecenter wrapper from
the configured addresses and the etcd storage, returning its error. -/
def createServiceCenter (env : Env) : Bool × List Event :=
  (env.scCreateOk, [Event.scCreate])

/-- Server.runTicker: creates the task ticker and starts it in the
goroutine pool; the Go function ends in an unconditional return nil,
modelled as the error value none. -/
def runTicker (_conf : Config) : Option String × List Event :=
  (none, [Event.tickerStart])

/-- Server.Run: initialises plugins, then runs etcd, serf, grpc,
servicecenter creation and the ticker in that order; any step whose
error is non-nil makes Run return immediately, otherwise Run ends by
waiting for the quit signal. The returned list is the trace of calls. -/
def Run (conf : Config) (env : Env) : List Event :=
  let t0 := [Event.initPlugin]
  let e1 := runEtcd env
  if e1.1 = false then t0 ++ e1.2 else
  let e2 := runSerf conf env
  if e2.1 = false then t0 ++ e1.2 ++ e2.2 else
  let e3 := runGrpc env
  if e3.1 = false then t0 ++ e1.2 ++ e2.2 ++ e3.2 else
  let e4 := createServiceCenter env
  if e4.1 = false then t0 ++ e1.2 ++ e2.2 ++ e3.2 ++ e4.2 else
  let e5 := runTicker conf
  if e5.1.isSome then t0 ++ e1.2 ++ e2.2 ++ e3.2 ++ e4.2 ++ e5.2 else
  t0 ++ e1.2 ++ e2.2 ++ e3.2 ++ e4.2 ++ e5.2 ++ [Event.waitQuit]

/-- Variant of runSerf in which the only configuration-dependent test,
whether the join address is empty, is passed as a boolean; used to
reduce quantification over Config to quantification over finite data. -/
def runSerfAux (joinEmpty : Bool) (env : Env) : Bool × List Event :=
  if env.serfCreateOk = false then
    (false, [Event.serfCreate])
  else if env.serfStartOk = false then
    (false, [Event.serfCreate, Event.registerEventHandler, Event.serfStart])
  else if joinEmpty then
    (true, [Event.serfCreate, Event.registerEventHandler, Event.serfStart])
  else
    (env.serfJoinOk,
      [Event.serfCreate, Event.registerEventHandler, Event.serfStart, Event.serfJoin])

/-- Variant of Run over the boolean join-address-empty test. -/
def RunAux (joinEmpty : Bool) (env : Env) : List Event :=
  let t0 := [Event.initPlugin]
  let e1 := runEtcd env
  if e1.1 = false then t0 ++ e1.2 else
  let e2 := runSerfAux joinEmpty env
  if e2.1 = false then t0 ++ e1.2 ++ e2.2 else
  let e3 := runGrpc env
  if e3.1 = false then t0 ++ e1.2 ++ e2.2 ++ e3.2 else
  let e4 := createServiceCenter env
  if e4.1 = false then t0 ++ e1.2 ++ e2.2 ++ e3.2 ++ e4.2 else
  let e5 := runTicker ⟨"", "", "", "", 0⟩
  if e5.1.isSome then t0 ++ e1.2 ++ e2.2 ++ e3.2 ++ e4.2 ++ e5.2 else
  t0 ++ e1.2 ++ e2.2 ++ e3.2 ++ e4.2 ++ e5.2 ++ [Event.waitQuit]

/-- Shutdown-side events: exactly the calls Server.Stop can make. -/
def isStopEvent : Event → Bool
  | Event.tickStop => true
  | Event.deregisterEventHandler => true
  | Event.serfLeave => true
  | Event.serfShutdown => true
  | Event.grpcStop => true
  | Event.etcdStop => true
  | Event.gopoolCloseAndWait => true
  | _ => false

/-- Modelled from the spec: the internal running state of the serf
agent. The agent-side bodies of DeregisterEventHandler, Leave and
Shutdown are not in src, so per the spec sentence that Stop is
idempotent they are modelled as idempotent state transitions. -/
structure AgentState where
  handlerRegistered : Bool
  inCluster : Bool
  running : Bool
deriving DecidableEq, Fintype

/-- Lifecycle state of the Server fields inspected by Stop: none models
a nil Go field (component never created); some b models a created
component whose running flag is b (for the agent, its AgentState). -/
structure ServerState where
  tick : Option Bool
  agent : Option AgentState
  grpc : Option Bool
  etcd : Option Bool
deriving DecidableEq, Fintype

/-- A server none of whose components was ever created, as returned by
NewServer before Run. -/
def nilServer : ServerState := ⟨none, none, none, none⟩

/-- Server.Stop: stops the ticker, then deregisters the event handler,
leaves the cluster and shuts down the serf agent, then stops grpc, then
stops etcd — each group only when its field is non-nil — and finally
closes the goroutine pool. Component-internal shutdown semantics are
modelled from the spec as idempotent transitions to the stopped state;
Stop never writes the Server fields themselves. -/
def Stop (s : ServerState) : ServerState × List Event :=
  let p1 : Option Bool × List Event :=
    match s.tick with
    | none => (none, [])
    | some _ => (some false, [Event.tickStop])
  let p2 : Option AgentState × List Event :=
    match s.agent with
    | none => (none, [])
    | some _ => (some ⟨false, false, false⟩,
        [Event.deregisterEventHandler, Event.serfLeave, Event.serfShutdown])
  let p3 : Option Bool × List Event :=
    match s.grpc with
    | none => (none, [])
    | some _ => (some false, [Event.grpcStop])
  let p4 : Option Bool × List Event :=
    match s.etcd with
    | none => (none, [])
    | some _ => (some false, [Event.etcdStop])
  (⟨p1.1, p2.1, p3.1, p4.1⟩,
    p1.2 ++ p2.2 ++ p3.2 ++ p4.2 ++ [Event.gopoolCloseAndWait])

/-- The full shutdown call sequence, in the order Stop issues it when
every component was started. -/
def stopOrderSpec : List Event :=
  [Event.tickStop, Event.deregisterEventHandler, Event.serfLeave,
   Event.serfShutdown, Event.grpcStop, Event.etcdStop, Event.gopoolCloseAndWait]

/-- OS signals relevant to the syncer process model. -/
inductive Signal where
  | sigint
  | sigkill
  | sigterm
  | sighup
  | sigquit
deriving DecidableEq, Fintype

/-- The signals Server.waitQuit passes to syssig.AddSignalsHandler
together with the handler that calls Stop. -/
def handledSignals : List Signal := [Signal.sigint, Signal.sigkill, Signal.sigterm]

/-- Modelled from the spec: syssig (not in src) invokes the registered
handler at most once, so over a whole arrival sequence Stop is called
exactly once when some handled signal arrives and never otherwise. -/
def stopCallCount (arrivals : List Signal) : Nat :=
  if arrivals.any (fun sg => decide (sg ∈ handledSignals)) then 1 else 0

/-- Return type of createLogFile, with an explicit nil writer so that
never returning one is expressible. -/
inductive GoWriter where
  | nilWriter
  | stderr
  | file (handle : String)
deriving DecidableEq

/-- createLogFile: the named return value starts as os.Stderr and is
kept for an empty path or when utils.OpenFile fails; otherwise the
opened file is returned. openF abstracts utils.OpenFile (not in src):
some is a successfully opened file, none an open error. -/
def createLogFile (openF : String → Option String) (logFile : String) : GoWriter :=
  if logFile = "" then GoWriter.stderr
  else
    match openF logFile with
    | none => GoWriter.stderr
    | some f => GoWriter.file f

/-- A concrete configuration with an empty join address. -/
def conf0 : Config :=
  { joinAddr := "", logFile := "", scAddr := "127.0.0.1:30100",
    rpcAddr := "127.0.0.1:30105", tickerInterval := 30 }

/-- A concrete configuration with a non-empty join address. -/
def confJoin : Config := { conf0 with joinAddr := "192.0.2.1:30190" }

/-- Environment in which every collaborator call succeeds. -/
def envAll : Env := ⟨true, true, true, true, true, true⟩

/-- Environment in which only etcd startup fails. -/
def envEtcdFail : Env := { envAll with etcdRunOk := false }

/-- Environment in which only serf agent creation fails. -/
def envSerfCreateFail : Env := { envAll with serfCreateOk := false }

/-- Environment in which only the serf join fails. -/
def envJoinFail : Env := { envAll with serfJoinOk := false }

/-- A server state in which every component was created and is running. -/
def fullServer : ServerState :=
  ⟨some true, some ⟨true, true, true⟩, some true, some true⟩

end Syncer

namespace Proto

/-- util.JSONObject is the Go type map with string keys; none models a
nil Go map, some its entries. Values of the Go interface type are
abstracted as strings. -/
abbrev JSONObject := Option (List (String × String))

/-- proto.ServerConfig. Durations and 64-bit integers are modelled as
Int with Go zero value 0. -/
structure ServerConfig where
  maxHeaderBytes : Int
  maxBodyBytes : Int
  readHeaderTimeout : String
  readTimeout : String
  idleTimeout : String
  writeTimeout : String
  limitTTLUnit : String
  limitConnections : Int
  limitIPLookup : String
  sslEnabled : Bool
  sslMinVersion : String
  sslVerifyPeer : Bool
  sslCiphers : String
  autoSyncInterval : String
  compactIndexDelta : Int
  compactInterval : String
  enablePProf : Bool
  enableCache : Bool
  logRotateSize : Int
  logBackupCount : Int
  logFilePath : String
  logLevel : String
  logFormat : String
  logSys : Bool
  enableAccessLog : Bool
  accessLogFile : String
  pluginsDir : String
  plugins : JSONObject
  selfRegister : Bool
  serviceClearEnabled : Bool
  serviceClearInterval : Int
  serviceTTL : Int
  cacheTTL : Int
deriving DecidableEq

/-- proto.ServerInformation. -/
structure ServerInformation where
  version : String
  config : ServerConfig
deriving DecidableEq

/-- proto.NewServerInformation: a composite literal that sets only
Config.Plugins, to make(util.JSONObject); every other field takes its
Go zero value (empty string, 0, false, and the zero Config struct). -/
def NewServerInformation : ServerInformation :=
  { version := ""
    config :=
      { maxHeaderBytes := 0
        maxBodyBytes := 0
        readHeaderTimeout := ""
        readTimeout := ""
        idleTimeout := ""
        writeTimeout := ""
        limitTTLUnit := ""
        limitConnections := 0
        limitIPLookup := ""
        sslEnabled := false
        sslMinVersion := ""
        sslVerifyPeer := false
        sslCiphers := ""
        autoSyncInterval := ""
        compactIndexDelta := 0
        compactInterval := ""
        enablePProf := false
        enableCache := false
        logRotateSize := 0
        logBackupCount := 0
        logFilePath := ""
        logLevel := ""
        logFormat := ""
        logSys := false
        enableAccessLog := false
        accessLogFile := ""
        pluginsDir := ""
        plugins := some []
        selfRegister := false
        serviceClearEnabled := false
        serviceClearInterval := 0
        serviceTTL := 0
        cacheTTL := 0 } }

/-- Go map assignment m[k] = v: assigning into a nil map panics
(modelled as none); assigning into a non-nil map gains or overwrites
the key (modelled as some of the updated map). -/
def jsonObjectInsert (m : JSONObject) (k v : String) : Option JSONObject :=
  match m with
  | none => none
  | some entries => some (some ((k, v) :: entries.filter (fun e => e.1 != k)))

end Proto

namespace Syncer

theorem runSerf_eq_aux (conf : Config) (env : Env) :
    runSerf conf env = runSerfAux (decide (conf.joinAddr = "")) env := by
  by_cases h : conf.joinAddr = "" <;> simp [runSerf, runSerfAux, h]

theorem Run_eq_aux (conf : Config) (env : Env) :
    Run conf env = RunAux (decide (conf.joinAddr = "")) env := by
  unfold Run RunAux
  rw [runSerf_eq_aux]
  simp only [runTicker]

/-- C1 (counterexample): with etcd started and serf creation failing,
Run returns with no shutdown call in its trace at all — in particular
the already-started etcd store is not stopped — refuting that Run
invokes Stop on already-started components before returning. -/
theorem run_failure_cex :
    Run conf0 envSerfCreateFail = [Event.initPlugin, Event.etcdRun, Event.serfCreate] ∧
    Event.etcdStop ∉ Run conf0 envSerfCreateFail ∧
    (∀ e ∈ Run conf0 envSerfCreateFail, isStopEvent e = false) := by
  decide

/-- C1 (amended): any failing startup step makes Run abort the remaining
startup sequence and return immediately; Run itself makes no shutdown
call on the components already started — cleanup is left to the
signal-handler path that calls Stop. -/
theorem run_failure_aborts_without_stop (conf : Config) (env : Env) :
    (∀ e ∈ Run conf env, isStopEvent e = false) ∧
    (env.etcdRunOk = false → Run conf env = [Event.initPlugin, Event.etcdRun]) ∧
    ((runSerf conf env).1 = false →
      Event.grpcRun ∉ Run conf env ∧ Event.scCreate ∉ Run conf env ∧
      Event.tickerStart ∉ Run conf env ∧ Event.waitQuit ∉ Run conf env) ∧
    (env.grpcRunOk = false →
      Event.scCreate ∉ Run conf env ∧ Event.tickerStart ∉ Run conf env ∧
      Event.waitQuit ∉ Run conf env) ∧
    (env.scCreateOk = false →
      Event.tickerStart ∉ Run conf env ∧ Event.waitQuit ∉ Run conf env) := by
  rw [Run_eq_aux, runSerf_eq_aux]
  generalize decide (conf.joinAddr = "") = b
  revert b
  revert env
  decide

/-- C1 (witness): a failing etcd startup makes Run return right after
the etcd attempt. -/
theorem run_failure_aborts_without_stop_witness :
    Run conf0 envEtcdFail = [Event.initPlugin, Event.etcdRun] :=
  (run_failure_aborts_without_stop conf0 envEtcdFail).2.1 (by decide)

/-- C2: Run performs startup in the order etcd, serf, grpc,
servicecenter, ticker; the ticker-start call is in the trace exactly
when every preceding step succeeded, so the timer never starts unless
the registry bridge was successfully created, and then only after it. -/
theorem run_startup_order_and_ticker_gate (conf : Config) (env : Env) :
    (Event.tickerStart ∈ Run conf env ↔
      (env.etcdRunOk = true ∧ (runSerf conf env).1 = true ∧
       env.grpcRunOk = true ∧ env.scCreateOk = true)) ∧
    (Event.tickerStart ∈ Run conf env →
      Event.etcdRun ∈ Run conf env ∧ Event.serfCreate ∈ Run conf env ∧
      Event.grpcRun ∈ Run conf env ∧ Event.scCreate ∈ Run conf env ∧
      (Run conf env).indexOf Event.etcdRun < (Run conf env).indexOf Event.serfCreate ∧
      (Run conf env).indexOf Event.serfCreate < (Run conf env).indexOf Event.grpcRun ∧
      (Run conf env).indexOf Event.grpcRun < (Run conf env).indexOf Event.scCreate ∧
      (Run conf env).indexOf Event.scCreate < (Run conf env).indexOf Event.tickerStart) := by
  rw [Run_eq_aux, runSerf_eq_aux]
  generalize decide (conf.joinAddr = "") = b
  revert b
  revert env
  decide

/-- C2 (witness): in a fully successful startup the timer starts, and
it starts after the registry bridge was created. -/
theorem run_startup_order_and_ticker_gate_witness :
    Event.tickerStart ∈ Run conf0 envAll ∧
    (Run conf0 envAll).indexOf Event.scCreate <
      (Run conf0 envAll).indexOf Event.tickerStart := by
  have h := run_startup_order_and_ticker_gate conf0 envAll
  have hm : Event.tickerStart ∈ Run conf0 envAll := h.1.mpr (by decide)
  exact ⟨hm, (h.2 hm).2.2.2.2.2.2.2⟩

/-- C3 (counterexample): in a fully successful startup the server
registers itself as the serf event handler before the serf agent even
starts, and before the grpc server and the registry bridge are started,
not between registry-bridge creation and timer start. -/
theorem register_handler_position_cex :
    Event.registerEventHandler ∈ Run conf0 envAll ∧
    Event.scCreate ∈ Run conf0 envAll ∧
    (Run conf0 envAll).indexOf Event.registerEventHandler <
      (Run conf0 envAll).indexOf Event.serfStart ∧
    (Run conf0 envAll).indexOf Event.registerEventHandler <
      (Run conf0 envAll).indexOf Event.grpcRun ∧
    (Run conf0 envAll).indexOf Event.registerEventHandler <
      (Run conf0 envAll).indexOf Event.scCreate := by
  decide

/-- C3 (amended): handler registration happens during membership-adapter
startup — immediately after the serf agent is created, before the agent
is started — hence before transport startup, registry-bridge creation
and timer start whenever those occur. -/
theorem register_handler_during_serf_startup (conf : Config) (env : Env) :
    (Event.registerEventHandler ∈ Run conf env ↔
      (env.etcdRunOk = true ∧ env.serfCreateOk = true)) ∧
    (Event.registerEventHandler ∈ Run conf env →
      Event.serfCreate ∈ Run conf env ∧
      (Run conf env).indexOf Event.serfCreate <
        (Run conf env).indexOf Event.registerEventHandler ∧
      (Event.serfStart ∈ Run conf env →
        (Run conf env).indexOf Event.registerEventHandler <
          (Run conf env).indexOf Event.serfStart) ∧
      (Event.grpcRun ∈ Run conf env →
        (Run conf env).indexOf Event.registerEventHandler <
          (Run conf env).indexOf Event.grpcRun) ∧
      (Event.scCreate ∈ Run conf env →
        (Run conf env).indexOf Event.registerEventHandler <
          (Run conf env).indexOf Event.scCreate) ∧
      (Event.tickerStart ∈ Run conf env →
        (Run conf env).indexOf Event.registerEventHandler <
          (Run conf env).indexOf Event.tickerStart)) := by
  rw [Run_eq_aux]
  generalize decide (conf.joinAddr = "") = b
  revert b
  revert env
  decide

/-- C3 (witness): in a fully successful startup the handler registration
call is in the trace. -/
theorem register_handler_during_serf_startup_witness :
    Event.registerEventHandler ∈ Run conf0 envAll :=
  (register_handler_during_serf_startup conf0 envAll).1.mpr (by decide)

set_option maxRecDepth 8192 in
/-- C4: Stop releases resources in the strict reverse order of startup:
its call trace is always a sublist of the canonical sequence stop timer,
deregister event handler, leave cluster, shut down agent, stop grpc,
stop etcd, close pool, and each component's shutdown calls are present
exactly when that component was created. -/
theorem stop_reverse_order (s : ServerState) :
    List.Sublist (Stop s).2 stopOrderSpec ∧
    (Event.tickStop ∈ (Stop s).2 ↔ s.tick.isSome = true) ∧
    (Event.deregisterEventHandler ∈ (Stop s).2 ↔ s.agent.isSome = true) ∧
    (Event.serfLeave ∈ (Stop s).2 ↔ s.agent.isSome = true) ∧
    (Event.serfShutdown ∈ (Stop s).2 ↔ s.agent.isSome = true) ∧
    (Event.grpcStop ∈ (Stop s).2 ↔ s.grpc.isSome = true) ∧
    (Event.etcdStop ∈ (Stop s).2 ↔ s.etcd.isSome = true) ∧
    Event.gopoolCloseAndWait ∈ (Stop s).2 := by
  revert s
  decide

/-- C4 (witness): on a fully started server the ticker-stop call is
made. -/
theorem stop_reverse_order_witness :
    Event.tickStop ∈ (Stop fullServer).2 :=
  (stop_reverse_order fullServer).2.1.mpr (by decide)

set_option maxRecDepth 8192 in
/-- C5: Stop is idempotent — a second Stop leaves the server and its
components in the state the first Stop produced — and on a server whose
components were never created Stop makes no component shutdown call and
leaves the state unchanged. -/
theorem stop_idempotent (s : ServerState) :
    (Stop (Stop s).1).1 = (Stop s).1 ∧
    (Stop nilServer).1 = nilServer ∧
    (Stop nilServer).2 = [Event.gopoolCloseAndWait] := by
  revert s
  decide

/-- C6: with the serf agent created and started, an empty join address
attempts no join and runSerf succeeds (the first-node case); a non-empty
join address whose join fails makes runSerf fail, after which Run makes
none of the remaining startup calls. -/
theorem serf_join_first_node_or_abort (conf : Config) (env : Env)
    (hc : env.serfCreateOk = true) (hs : env.serfStartOk = true) :
    (conf.joinAddr = "" →
      (runSerf conf env).1 = true ∧ Event.serfJoin ∉ (runSerf conf env).2) ∧
    (conf.joinAddr ≠ "" → env.serfJoinOk = false →
      (runSerf conf env).1 = false ∧
      (env.etcdRunOk = true →
        Event.grpcRun ∉ Run conf env ∧ Event.scCreate ∉ Run conf env ∧
        Event.tickerStart ∉ Run conf env ∧ Event.waitQuit ∉ Run conf env)) := by
  constructor
  · intro hj
    rw [runSerf_eq_aux]
    have hb : decide (conf.joinAddr = "") = true := by simp [hj]
    rw [hb]
    revert hc hs
    revert env
    decide
  · intro hj hjf
    rw [runSerf_eq_aux, Run_eq_aux]
    have hb : decide (conf.joinAddr = "") = false := by simp [hj]
    rw [hb]
    revert hc hs hjf
    revert env
    decide

/-- C6 (witness): with an empty join address runSerf succeeds without a
join call; with a failing join of a non-empty address runSerf fails. -/
theorem serf_join_first_node_or_abort_witness :
    (runSerf conf0 envAll).1 = true ∧ Event.serfJoin ∉ (runSerf conf0 envAll).2 ∧
    (runSerf confJoin envJoinFail).1 = false := by
  have h1 := (serf_join_first_node_or_abort conf0 envAll (by decide) (by decide)).1 (by decide)
  have h2 := ((serf_join_first_node_or_abort confJoin envJoinFail
      (by decide) (by decide)).2 (by decide) (by decide)).1
  exact ⟨h1.1, h1.2, h2⟩

/-- C7 (counterexample): the registered signal set also contains the
kill signal, which is neither the interrupt nor the terminate signal,
so the installed set is not exactly interrupt and terminate. -/
theorem handled_signals_cex :
    Signal.sigkill ∈ handledSignals ∧
    Signal.sigkill ≠ Signal.sigint ∧ Signal.sigkill ≠ Signal.sigterm := by
  decide

/-- C7 (amended): the set of signals for which the termination handler
is installed is exactly interrupt, kill and terminate; an arrival
sequence containing at least one of them leads to exactly one Stop
call, and a sequence containing none leads to no Stop call. -/
theorem handled_signals_and_stop_once :
    (∀ sg : Signal, sg ∈ handledSignals ↔
      (sg = Signal.sigint ∨ sg = Signal.sigkill ∨ sg = Signal.sigterm)) ∧
    (∀ arrivals : List Signal,
      ((∃ sg ∈ arrivals, sg ∈ handledSignals) → stopCallCount arrivals = 1) ∧
      ((∀ sg ∈ arrivals, sg ∉ handledSignals) → stopCallCount arrivals = 0)) := by
  constructor
  · decide
  · intro arrivals
    constructor
    · intro h
      obtain ⟨sg, hmem, hsg⟩ := h
      have hany : arrivals.any (fun x => decide (x ∈ handledSignals)) = true :=
        List.any_eq_true.mpr ⟨sg, hmem, by simpa⟩
      simp [stopCallCount, hany]
    · intro h
      cases hany : arrivals.any (fun x => decide (x ∈ handledSignals)) with
      | false => simp [stopCallCount, hany]
      | true =>
        exfalso
        obtain ⟨sg, hmem, hsg⟩ := List.any_eq_true.mp hany
        exact (h sg hmem) (by simpa using hsg)

/-- C7 (witness): an arrival sequence with a terminate signal among
others produces exactly one Stop call. -/
theorem handled_signals_and_stop_once_witness :
    stopCallCount [Signal.sighup, Signal.sigterm] = 1 :=
  (handled_signals_and_stop_once.2 [Signal.sighup, Signal.sigterm]).1 (by decide)

/-- C8: createLogFile never returns a nil writer: it returns stderr for
an empty path or a failed open, and the opened file otherwise. -/
theorem createLogFile_never_nil (openF : String → Option String) (logFile : String) :
    createLogFile openF logFile ≠ GoWriter.nilWriter ∧
    (logFile = "" → createLogFile openF logFile = GoWriter.stderr) ∧
    (logFile ≠ "" → openF logFile = none →
      createLogFile openF logFile = GoWriter.stderr) ∧
    (∀ f, logFile ≠ "" → openF logFile = some f →
      createLogFile openF logFile = GoWriter.file f) := by
  refine ⟨?_, ?_, ?_, ?_⟩
  · by_cases h : logFile = ""
    · simp [createLogFile, h]
    · cases ho : openF logFile <;> simp [createLogFile, h, ho]
  · intro h
    simp [createLogFile, h]
  · intro h ho
    simp [createLogFile, h, ho]
  · intro f h ho
    simp [createLogFile, h, ho]

/-- C8 (witness): with an empty path the writer is stderr. -/
theorem createLogFile_never_nil_witness :
    createLogFile (fun _ => none) "" = GoWriter.stderr :=
  (createLogFile_never_nil (fun _ => none) "").2.1 rfl

/-- C9: runTicker always returns a nil error, and when every step up to
registry-bridge creation succeeded Run unconditionally starts the timer
and reaches the quit-signal wait. -/
theorem run_ticker_never_fails (conf : Config) (env : Env) :
    (runTicker conf).1 = none ∧
    (env.etcdRunOk = true → (runSerf conf env).1 = true →
      env.grpcRunOk = true → env.scCreateOk = true →
      Event.tickerStart ∈ Run conf env ∧ Event.waitQuit ∈ Run conf env) := by
  constructor
  · rfl
  · rw [Run_eq_aux, runSerf_eq_aux]
    generalize decide (conf.joinAddr = "") = b
    revert b
    revert env
    decide

/-- C9 (witness): in a fully successful startup Run reaches the
quit-signal wait. -/
theorem run_ticker_never_fails_witness :
    Event.waitQuit ∈ Run conf0 envAll :=
  ((run_ticker_never_fails conf0 envAll).2 (by decide) (by decide)
    (by decide) (by decide)).2

end Syncer

namespace Proto

/-- C10: NewServerInformation returns a value whose Version is the empty
string and whose Config.Plugins is a non-nil empty map, so inserting a
plugin entry into the returned Plugins map never hits the nil-map
panic. -/
theorem newServerInformation_plugins_ready :
    NewServerInformation.version = "" ∧
    NewServerInformation.config.plugins = some [] ∧
    ∀ k v : String,
      (jsonObjectInsert NewServerInformation.config.plugins k v).isSome = true := by
  refine ⟨rfl, rfl, ?_⟩
  intro k v
  rfl

end Proto
